import Mathlib

/-!
# Verification of the back-it-onchain event-indexing pipeline

Shallow embedding of the resilient indexing subsystem:

* `rpcWithRetry` — the exponential-backoff retry engine of
  `rpc-retry.util.ts` (`withRetry`, lines 117–166), together with its
  error classes and the default Soroban retryability predicate;
* `oracleWithRetry` — the private retry engine of `oracle.service.ts`
  (`withRetry`, lines 40–77);
* `fetchIpfsData` — the multi-gateway IPFS fallback fetcher of
  `indexer.service.ts` (lines 277–330);
* `handleCallCreated` / `handleStakeAdded` — the event handlers of
  `indexer.service.ts` (lines 180–260);
* `scheduleReconnect` — the live-listener reconnect state machine of
  `indexer.service.ts` (lines 388–419).

JavaScript numbers are modelled as rationals (`ℚ`); `Math.round` as
round-half-up; `Math.random()` draws are passed in explicitly as an
oracle `rand : ℕ → ℚ` (one draw per backoff computation).  Asynchronous
operations are modelled by their outcome per invocation:
`fn : ℕ → Except JsError A` gives the result of the i-th invocation
(1-based).  A run is summarised by a `RetryResult`: how many times the
operation was invoked, the list of backoff sleeps actually performed
(in ms, in order), and the final outcome.
-/

/-- JavaScript `Math.round`: round half toward positive infinity. -/
def roundJs (x : ℚ) : ℤ := ⌊x + 1/2⌋

/-- Error values thrown by the pipeline.  `plain` is a generic JS
`Error` carrying its message; `rpcNonRetryable` is the
`RpcNonRetryableError` class of `rpc-retry.util.ts` (message plus
optional cause); `exhausted` is an `RpcExhaustedError`
(operation label, attempt count, last error). -/
inductive JsError : Type where
  | plain (message : String) : JsError
  | rpcNonRetryableBare (message : String) : JsError
  | rpcNonRetryableCaused (message : String) (cause : JsError) : JsError
  | exhausted (operation : String) (attempts : Nat) (lastError : JsError) : JsError
deriving DecidableEq, Repr

namespace JsError

/-- The `message` property of the error, as built by each class's
constructor (`RpcExhaustedError` of `rpc-retry.util.ts` prefixes
`RPC operation …`). -/
def message : JsError → String
  | plain m => m
  | rpcNonRetryableBare m => m
  | rpcNonRetryableCaused m _ => m
  | exhausted op n last =>
      "RPC operation \"" ++ op ++ "\" failed after " ++ toString n ++
        " attempt(s): " ++ last.message

/-- `err instanceof RpcNonRetryableError`. -/
def isRpcNonRetryable : JsError → Bool
  | rpcNonRetryableBare _ => true
  | rpcNonRetryableCaused _ _ => true
  | _ => false

end JsError

instance {E A : Type} [DecidableEq E] [DecidableEq A] : DecidableEq (Except E A)
  | .ok x, .ok y =>
      if h : x = y then isTrue (by rw [h]) else isFalse (fun hc => h (Except.ok.inj hc))
  | .error x, .error y =>
      if h : x = y then isTrue (by rw [h]) else isFalse (fun hc => h (Except.error.inj hc))
  | .ok _, .error _ => isFalse nofun
  | .error _, .ok _ => isFalse nofun

/-- Summary of one `withRetry` run: number of invocations of the wrapped
operation, backoff sleeps performed (ms, in order; the k-th entry is the
sleep between attempt k and attempt k+1), and the final outcome. -/
structure RetryResult (A : Type) where
  invocations : Nat
  delays : List ℤ
  outcome : Except JsError A
deriving DecidableEq, Repr

/-- `RetryOptions` of `rpc-retry.util.ts` with the `DEFAULTS` applied
(maxAttempts 4, base 1000 ms, factor 2, cap 30000 ms, jitter 0.2,
operation name "rpc"). -/
structure RetryOptions where
  maxAttempts : Nat := 4
  baseDelayMs : ℚ := 1000
  factor : ℚ := 2
  maxDelayMs : ℚ := 30000
  jitter : ℚ := 1/5
  isRetryable : Option (JsError → Nat → Bool) := none
  operationName : String := "rpc"

/-- Loop body of `withRetry` (`rpc-retry.util.ts` lines 133–165).
`fuel` is the number of attempts still allowed (initially
`maxAttempts`), `attempt` the 1-based index of the current attempt.
On a failure the error is rethrown if it is an `RpcNonRetryableError`;
otherwise a configured `isRetryable` predicate returning false converts
it into a fresh `RpcNonRetryableError`; otherwise, on the final attempt
the loop breaks into the trailing `RpcExhaustedError` throw, and before
any earlier retry the capped, jittered, rounded, non-negative backoff
delay is slept. -/
def rpcWithRetryGo {A : Type} (fn : Nat → Except JsError A) (o : RetryOptions)
    (rand : Nat → ℚ) : Nat → Nat → RetryResult A
  | 0, _ =>
      ⟨0, [], .error (.exhausted o.operationName o.maxAttempts (.plain "Unknown error"))⟩
  | fuel + 1, attempt =>
      match fn attempt with
      | .ok v => ⟨1, [], .ok v⟩
      | .error e =>
          if e.isRpcNonRetryable then ⟨1, [], .error e⟩
          else if (match o.isRetryable with
                   | some p => !(p e attempt)
                   | none => false) then
            ⟨1, [], .error (.rpcNonRetryableCaused
              ("Non-retryable error on \"" ++ o.operationName ++ "\": " ++ e.message)
              e)⟩
          else if fuel = 0 then
            ⟨1, [], .error (.exhausted o.operationName o.maxAttempts e)⟩
          else
            let rawDelay := min (o.baseDelayMs * o.factor ^ (attempt - 1)) o.maxDelayMs
            let jitterMs := rawDelay * o.jitter * (rand attempt * 2 - 1)
            let delay := max 0 (roundJs (rawDelay + jitterMs))
            let rest := rpcWithRetryGo fn o rand fuel (attempt + 1)
            ⟨rest.invocations + 1, delay :: rest.delays, rest.outcome⟩

/-- `withRetry` of `rpc-retry.util.ts` (lines 117–166). -/
def rpcWithRetry {A : Type} (fn : Nat → Except JsError A) (o : RetryOptions)
    (rand : Nat → ℚ) : RetryResult A :=
  rpcWithRetryGo fn o rand o.maxAttempts 1

/-- `RetryOptions` of `oracle.service.ts` with its defaults applied
(maxAttempts 4, base 1000 ms, factor 2, cap 30000 ms, jitter 0.2,
operation name "operation"); this interface has no retryability
predicate. -/
structure OracleRetryOptions where
  maxAttempts : Nat := 4
  baseDelayMs : ℚ := 1000
  factor : ℚ := 2
  maxDelayMs : ℚ := 30000
  jitter : ℚ := 1/5
  operationName : String := "operation"

/-- Loop body of the `withRetry` of `oracle.service.ts` (lines 56–74):
same exponential backoff, but every error is retried — there is no
non-retryable class check and no predicate. -/
def oracleWithRetryGo {A : Type} (fn : Nat → Except JsError A) (o : OracleRetryOptions)
    (rand : Nat → ℚ) : Nat → Nat → RetryResult A
  | 0, _ =>
      ⟨0, [], .error (.exhausted o.operationName o.maxAttempts (.plain "Unknown error"))⟩
  | fuel + 1, attempt =>
      match fn attempt with
      | .ok v => ⟨1, [], .ok v⟩
      | .error e =>
          if fuel = 0 then
            ⟨1, [], .error (.exhausted o.operationName o.maxAttempts e)⟩
          else
            let raw := min (o.baseDelayMs * o.factor ^ (attempt - 1)) o.maxDelayMs
            let delay := max 0 (roundJs (raw + raw * o.jitter * (rand attempt * 2 - 1)))
            let rest := oracleWithRetryGo fn o rand fuel (attempt + 1)
            ⟨rest.invocations + 1, delay :: rest.delays, rest.outcome⟩

/-- `withRetry` of `oracle.service.ts` (lines 40–77). -/
def oracleWithRetry {A : Type} (fn : Nat → Except JsError A) (o : OracleRetryOptions)
    (rand : Nat → ℚ) : RetryResult A :=
  oracleWithRetryGo fn o rand o.maxAttempts 1

/-- The capped raw backoff `min(baseDelayMs * factor ^ (attempt - 1), maxDelayMs)`
computed after a failed attempt. -/
def rawBackoff (base factor maxD : ℚ) (attempt : Nat) : ℚ :=
  min (base * factor ^ (attempt - 1)) maxD

/-- The integral backoff actually slept by `withRetry` of
`rpc-retry.util.ts` after failing attempt `i`, for the draw `rand i`. -/
def rpcDelayAt (o : RetryOptions) (rand : Nat → ℚ) (i : Nat) : ℤ :=
  let raw := rawBackoff o.baseDelayMs o.factor o.maxDelayMs i
  max 0 (roundJs (raw + raw * o.jitter * (rand i * 2 - 1)))

/-- The integral backoff actually slept by `withRetry` of
`oracle.service.ts` after failing attempt `i`, for the draw `rand i`. -/
def oracleDelayAt (o : OracleRetryOptions) (rand : Nat → ℚ) (i : Nat) : ℤ :=
  let raw := rawBackoff o.baseDelayMs o.factor o.maxDelayMs i
  max 0 (roundJs (raw + raw * o.jitter * (rand i * 2 - 1)))

/-- The failure of attempt `i` with error `e` is retried by the
`rpc-retry.util.ts` engine: it is not an `RpcNonRetryableError` and a
configured `isRetryable` predicate accepts it. -/
def RetryableFailure (o : RetryOptions) (e : JsError) (i : Nat) : Prop :=
  e.isRpcNonRetryable = false ∧ ∀ p, o.isRetryable = some p → p e i = true

/-! ## Default Soroban retryability classifier

`defaultSorobanIsRetryable` of `rpc-retry.util.ts` (lines 227–242)
lowercases the error message, treats rate-limit signals (`429`,
`rate limit`, `too many requests`) as retryable, then rejects messages
matching the regex `\b4[0-9]{2}\b` unless they mention `408` or `425`,
and treats everything else as retryable.  Strings are handled at the
character-list level so all predicates evaluate by kernel reduction. -/

/-- `needle.isPrefixOf haystack` on character lists. -/
def charsStartWith : List Char → List Char → Bool
  | [], _ => true
  | _ :: _, [] => false
  | n :: ns, h :: hs => n == h && charsStartWith ns hs

/-- JavaScript `haystack.includes(needle)` on character lists. -/
def charsInclude (needle : List Char) : List Char → Bool
  | [] => charsStartWith needle []
  | c :: rest => charsStartWith needle (c :: rest) || charsInclude needle rest

/-- JavaScript `s.includes(t)`. -/
def jsIncludes (s t : String) : Bool := charsInclude t.data s.data

/-- A JavaScript word character (`\w`, i.e. `[A-Za-z0-9_]`). -/
def isWordChar (c : Char) : Bool := c.isAlphanum || c == '_'

/-- Scanner for the regex `\b4[0-9]{2}\b`: some position holds `'4'`
followed by two digits, with a non-word character (or the string edge)
on both sides.  `prev` is the character preceding the current
position. -/
def has4xxCodeAux (prev : Option Char) : List Char → Bool
  | c0 :: c1 :: c2 :: rest =>
      (c0 == '4' && c1.isDigit && c2.isDigit &&
        (match prev with | none => true | some p => !isWordChar p) &&
        (match rest with | [] => true | r :: _ => !isWordChar r))
      || has4xxCodeAux (some c0) (c1 :: c2 :: rest)
  | _ => false

/-- `/\b4[0-9]{2}\b/.test(s)`. -/
def has4xxCode (s : String) : Bool := has4xxCodeAux none s.data

/-- JavaScript `s.toLowerCase()` for the ASCII messages in play. -/
def jsToLower (s : String) : String := ⟨s.data.map Char.toLower⟩

/-- `defaultSorobanIsRetryable` of `rpc-retry.util.ts` (lines 227–242). -/
def defaultSorobanIsRetryable (err : JsError) : Bool :=
  let msg := jsToLower err.message
  if jsIncludes msg "429" || jsIncludes msg "rate limit" ||
      jsIncludes msg "too many requests" then
    true
  else if has4xxCode msg && !(jsIncludes msg "408") && !(jsIncludes msg "425") then
    false
  else
    true

/-! ## Listener reconnect state machine (`indexer.service.ts` 388–419) -/

/-- `LISTENER_RECONNECT_DELAY_MS` (line 18). -/
def LISTENER_RECONNECT_DELAY_MS : Nat := 10000

/-- `LISTENER_MAX_RECONNECTS` (line 21). -/
def LISTENER_MAX_RECONNECTS : Nat := 10

/-- Effect of one `scheduleReconnect()` call: either the ceiling was hit
(the fatal give-up message is logged and nothing is scheduled), or a
reconnect is scheduled after `delayMs` and the failure counter is
incremented to `newCount`. -/
inductive ReconnectAction : Type where
  | gaveUp : ReconnectAction
  | scheduled (delayMs : Nat) (newCount : Nat) : ReconnectAction
deriving DecidableEq, Repr

/-- `scheduleReconnect` of `indexer.service.ts` (lines 388–419), as a
function of the current `reconnectCount`. -/
def scheduleReconnect (reconnectCount : Nat) : ReconnectAction :=
  if reconnectCount ≥ LISTENER_MAX_RECONNECTS then .gaveUp
  else
    .scheduled (min (LISTENER_RECONNECT_DELAY_MS * 2 ^ reconnectCount) 300000)
      (reconnectCount + 1)

/-- `n` consecutive transport failures starting from failure counter
`count`, each invoking `scheduleReconnect` with no successful reconnect
in between (so the counter is never reset): returns the list of delays
of the reconnects actually scheduled, and whether the terminal give-up
branch was reached. -/
def reconnectTrace : Nat → Nat → List Nat × Bool
  | 0, _ => ([], false)
  | n + 1, count =>
      match scheduleReconnect count with
      | .gaveUp => ([], true)
      | .scheduled d c =>
          let rest := reconnectTrace n c
          (d :: rest.1, rest.2)

/-! ## Persistence model and event handlers (`indexer.service.ts` 180–260)

The TypeORM repository over the `Call` entity is modelled as a list of
records; `findOne({ where: { callOnchainId } })` is first-match lookup,
creating+saving a fresh entity appends it, and saving a loaded entity
writes it back over the row(s) with its primary identifier. -/

/-- The fields of the `Call` entity touched by the indexer.  Timestamps
are stored in ms (`new Date(Number(ts) * 1000)`); the stake
accumulators hold `Number(ethers.formatUnits(amount, 18))`. -/
structure Call : Type where
  callOnchainId : String
  creatorWallet : String
  stakeToken : String
  totalStakeYes : ℚ
  totalStakeNo : ℚ
  startTsMs : ℤ
  endTsMs : ℤ
  tokenAddress : String
  pairId : String
  ipfsCid : String
  conditionJson : List (String × String)
  status : String
deriving DecidableEq, Repr

/-- The persisted `Call` records. -/
abbrev CallsDb := List Call

/-- `callsRepository.findOne({ where: { callOnchainId: id } })`. -/
def findOneByOnchainId (db : CallsDb) (id : String) : Option Call :=
  db.find? (fun c => c.callOnchainId == id)

/-- `callsRepository.save` on an entity loaded from the store: the
row(s) carrying its unique on-chain identifier are overwritten. -/
def saveById (db : CallsDb) (c : Call) : CallsDb :=
  db.map (fun x => if x.callOnchainId == c.callOnchainId then c else x)

/-- `Number(ethers.formatUnits(amount, 18))`. -/
def formatUnits18 (amount : Nat) : ℚ := (amount : ℚ) / 10 ^ 18

/-- Decoded `CallCreated` event arguments (uint256 values as `ℕ`). -/
structure CallCreatedEvent : Type where
  callId : Nat
  creator : String
  stakeToken : String
  stakeAmount : Nat
  startTs : Nat
  endTs : Nat
  tokenAddress : String
  pairId : String
  ipfsCID : String
deriving DecidableEq, Repr

/-- Decoded `StakeAdded` event arguments. -/
structure StakeAddedEvent : Type where
  callId : Nat
  staker : String
  position : Bool
  amount : Nat
deriving DecidableEq, Repr

/-- `handleCallCreated` of `indexer.service.ts` (lines 180–228).
`validateUser` is the external auth collaborator
(`authService.validateUser`, a call that either succeeds or throws) and
`fetchIpfs` the outcome of `this.fetchIpfsData(ipfsCID)` for the
event's content address.  An existing record with the same on-chain
identifier short-circuits; a thrown validation error propagates; a
failed IPFS fetch degrades to empty metadata; otherwise the fresh
record is appended. -/
def handleCallCreated (validateUser : String → Except JsError Unit)
    (fetchIpfs : String → Except JsError (List (String × String)))
    (db : CallsDb) (ev : CallCreatedEvent) : Except JsError CallsDb :=
  match findOneByOnchainId db (toString ev.callId) with
  | some _ => .ok db
  | none =>
      match validateUser ev.creator with
      | .error e => .error e
      | .ok _ =>
          let conditionJson :=
            if 0 < ev.ipfsCID.length then
              match fetchIpfs ev.ipfsCID with
              | .ok j => j
              | .error _ => []
            else []
          .ok (db ++ [{ callOnchainId := toString ev.callId,
                        creatorWallet := ev.creator,
                        stakeToken := ev.stakeToken,
                        totalStakeYes := formatUnits18 ev.stakeAmount,
                        totalStakeNo := 0,
                        startTsMs := (ev.startTs : ℤ) * 1000,
                        endTsMs := (ev.endTs : ℤ) * 1000,
                        tokenAddress := ev.tokenAddress,
                        pairId := ev.pairId,
                        ipfsCid := ev.ipfsCID,
                        conditionJson := conditionJson,
                        status := "active" }])

/-- Result of `handleStakeAdded`: the updated store and the
warning-level log lines emitted. -/
structure StakeHandlerResult : Type where
  db : CallsDb
  warnings : List String
deriving DecidableEq, Repr

/-- `handleStakeAdded` of `indexer.service.ts` (lines 230–260): look up
the record; if absent, warn and do nothing; otherwise add the amount to
the accumulator selected by the position flag and save. -/
def handleStakeAdded (db : CallsDb) (ev : StakeAddedEvent) : StakeHandlerResult :=
  match findOneByOnchainId db (toString ev.callId) with
  | none =>
      ⟨db, ["StakeAdded received for unknown Call " ++ toString ev.callId ++ " — skipping"]⟩
  | some call =>
      let amountNum := formatUnits18 ev.amount
      let updated :=
        if ev.position then { call with totalStakeYes := call.totalStakeYes + amountNum }
        else { call with totalStakeNo := call.totalStakeNo + amountNum }
      ⟨saveById db updated, []⟩

/-! ## Multi-gateway IPFS fetch (`indexer.service.ts` 277–330)

The network is an oracle `net : String → Nat → Nat → Except JsError IpfsJson`
giving the outcome of the fetch of a URL with a given per-attempt
timeout (ms) on a given (1-based) invocation; the code always passes
the fixed 6000 ms timeout.  Jitter draws are per gateway and attempt
(`rand g a`). -/

/-- JSON metadata payloads, as string key/value objects. -/
abbrev IpfsJson := List (String × String)

/-- The canned payload returned for the sentinel CID `QmMockCID`. -/
def mockIpfsPayload : IpfsJson :=
  [("title", "ETH will flip BTC"),
   ("thesis", "Ethereum has better fundamentals and yielding properties than Bitcoin."),
   ("target", "0.06 BTC"),
   ("deadline", "2026-01-01")]

/-- The ordered gateway URL list for a CID (lines 288–293). -/
def ipfsGateways (cid : String) : List String :=
  ["http://localhost:3001/calls/ipfs/" ++ cid,
   "https://gateway.pinata.cloud/ipfs/" ++ cid,
   "https://ipfs.io/ipfs/" ++ cid,
   "https://dweb.link/ipfs/" ++ cid]

/-- The operation label for a gateway:
`indexer:fetchIpfs: + url.split('/ipfs/')[0]`. -/
def gatewayOperationName (url : String) : String :=
  "indexer:fetchIpfs:" ++ (url.splitOn "/ipfs/").headD url

/-- One gateway attempt block: `withRetry` of `oracle.service.ts` with
the independent budget `{ maxAttempts: 3, baseDelayMs: 500 }` around a
fetch of `url` with a 6000 ms timeout (lines 300–316). -/
def fetchIpfsGateway (net : String → Nat → Nat → Except JsError IpfsJson)
    (rand : Nat → ℚ) (url : String) : RetryResult IpfsJson :=
  oracleWithRetry (fun attempt => net url 6000 attempt)
    { maxAttempts := 3, baseDelayMs := 500, operationName := gatewayOperationName url }
    rand

/-- The gateway loop (lines 295–326): walk the URLs in order, each with
its own retry budget; a success stops the walk; a failure replaces
`lastErr` and moves on.  Returns, per gateway actually contacted, the
URL and the number of invocations spent on it, plus the success payload
if any and the final `lastErr`. -/
def fetchIpfsGo (net : String → Nat → Nat → Except JsError IpfsJson)
    (rand : Nat → Nat → ℚ) :
    Nat → List String → JsError → List (String × Nat) × Option IpfsJson × JsError
  | _, [], lastErr => ([], none, lastErr)
  | g, url :: rest, lastErr =>
      let r := fetchIpfsGateway net (rand g) url
      match r.outcome with
      | .ok data => ([(url, r.invocations)], some data, lastErr)
      | .error e =>
          let next := fetchIpfsGo net rand (g + 1) rest e
          ((url, r.invocations) :: next.1, next.2.1, next.2.2)

/-- Trace of one `fetchIpfsData` call: the gateways contacted (URL and
invocation count, in order) and the overall outcome. -/
structure FetchTrace : Type where
  perGateway : List (String × Nat)
  outcome : Except JsError IpfsJson
deriving DecidableEq, Repr

/-- `fetchIpfsData` of `indexer.service.ts` (lines 277–330): sentinel
CID short-circuit, then the gateway loop; if no gateway succeeded,
throw `RpcExhaustedError(ipfs:cid, gateways.length * 3, lastErr)`. -/
def fetchIpfsData (cid : String) (net : String → Nat → Nat → Except JsError IpfsJson)
    (rand : Nat → Nat → ℚ) : FetchTrace :=
  if cid = "QmMockCID" then ⟨[], .ok mockIpfsPayload⟩
  else
    let gs := ipfsGateways cid
    let r := fetchIpfsGo net rand 0 gs (.plain "No gateways configured")
    match r.2.1 with
    | some data => ⟨r.1, .ok data⟩
    | none => ⟨r.1, .error (.exhausted ("ipfs:" ++ cid) (gs.length * 3) r.2.2)⟩

/-- Spec-side predicate: the message signals rate limiting (HTTP 429,
`rate limit`, or `too many requests`). -/
def signalsRateLimit (m : String) : Bool :=
  jsIncludes m "429" || jsIncludes m "rate limit" || jsIncludes m "too many requests"

/-- Spec-side predicate: the message mentions a request-timeout class
status code (408 Request Timeout / 425 Too Early). -/
def mentionsTimeoutCode (m : String) : Bool :=
  jsIncludes m "408" || jsIncludes m "425"

/-! ## Concrete test vectors (used by witnesses and counterexamples) -/

/-- An operation that fails with a plain transient error on every
invocation. -/
def alwaysBoom : Nat → Except JsError Unit := fun _ => .error (.plain "boom")

/-- A deterministic jitter source: every `Math.random()` draw is 1/2,
i.e. zero jitter. -/
def halfRand : Nat → ℚ := fun _ => 1/2

/-- A network oracle for which only the `ipfs.io` gateway answers. -/
def ipfsIoOnlyNet (url : String) (_timeoutMs _a : Nat) : Except JsError IpfsJson :=
  if charsStartWith "https://ipfs.io".data url.data then .ok [("k", "v")]
  else .error (.plain "down")

/-- A network oracle for which every gateway fails every attempt. -/
def allDownNet : String → Nat → Nat → Except JsError IpfsJson :=
  fun _ _ _ => .error (.plain "down")

/-- Per-gateway jitter draws, all 1/2. -/
def halfRand2 : Nat → Nat → ℚ := fun _ _ => 1/2

/-- The per-gateway, per-attempt errors observed under `allDownNet`. -/
def downErrs : Nat → Nat → JsError := fun _ _ => .plain "down"

/-- Decoded creation event used by the handler witnesses. -/
def wCreatedEv : CallCreatedEvent :=
  ⟨42, "0xCreator", "0xT", 5000000000000000000, 100, 200, "0xTok", "pair", "cidX"⟩

/-- An auth collaborator that accepts every address. -/
def wValidate : String → Except JsError Unit := fun _ => .ok ()

/-- An IPFS fetch outcome oracle that returns a fixed payload. -/
def wIpfsFetch : String → Except JsError IpfsJson := fun _ => .ok [("a", "b")]

/-- The store after delivering `wCreatedEv` to an empty store (the
stake accumulator `formatUnits18 5000000000000000000` equals 5). -/
def wDbAfter : CallsDb :=
  [⟨"42", "0xCreator", "0xT", formatUnits18 5000000000000000000, 0, 100000, 200000,
    "0xTok", "pair", "cidX", [("a", "b")], "active"⟩]

/-- Decoded stake event whose identifier matches no record. -/
def wStakeEv : StakeAddedEvent := ⟨7, "0xS", true, 1000⟩

/-! ## Laws of the retry engines -/

theorem rpcGo_ok {A : Type} {fn : Nat → Except JsError A} {o : RetryOptions}
    {rand : Nat → ℚ} {fuel attempt : Nat} {v : A} (h : fn attempt = .ok v) :
    rpcWithRetryGo fn o rand (fuel + 1) attempt = ⟨1, [], .ok v⟩ := by
  simp [rpcWithRetryGo, h]

theorem rpcGo_nonRetryable {A : Type} {fn : Nat → Except JsError A} {o : RetryOptions}
    {rand : Nat → ℚ} {fuel attempt : Nat} {e : JsError} (h : fn attempt = .error e)
    (hnr : e.isRpcNonRetryable = true) :
    rpcWithRetryGo fn o rand (fuel + 1) attempt = ⟨1, [], .error e⟩ := by
  simp [rpcWithRetryGo, h, hnr]

theorem rpcGo_predicateReject {A : Type} {fn : Nat → Except JsError A} {o : RetryOptions}
    {rand : Nat → ℚ} {fuel attempt : Nat} {e : JsError} {p : JsError → Nat → Bool}
    (h : fn attempt = .error e) (hnr : e.isRpcNonRetryable = false)
    (hp : o.isRetryable = some p) (hrej : p e attempt = false) :
    rpcWithRetryGo fn o rand (fuel + 1) attempt =
      ⟨1, [], .error (.rpcNonRetryableCaused
        ("Non-retryable error on \"" ++ o.operationName ++ "\": " ++ e.message) e)⟩ := by
  simp [rpcWithRetryGo, h, hnr, hp, hrej]

theorem rpcGo_finalFail {A : Type} {fn : Nat → Except JsError A} {o : RetryOptions}
    {rand : Nat → ℚ} {attempt : Nat} {e : JsError} (h : fn attempt = .error e)
    (hr : RetryableFailure o e attempt) :
    rpcWithRetryGo fn o rand 1 attempt =
      ⟨1, [], .error (.exhausted o.operationName o.maxAttempts e)⟩ := by
  obtain ⟨hnr, hpred⟩ := hr
  cases hp : o.isRetryable with
  | none => simp [rpcWithRetryGo, h, hnr, hp]
  | some p => simp [rpcWithRetryGo, h, hnr, hp, hpred p hp]

theorem rpcGo_retryStep {A : Type} {fn : Nat → Except JsError A} {o : RetryOptions}
    {rand : Nat → ℚ} {fuel attempt : Nat} {e : JsError} (h : fn attempt = .error e)
    (hr : RetryableFailure o e attempt) (hfuel : 1 ≤ fuel) :
    rpcWithRetryGo fn o rand (fuel + 1) attempt =
      ⟨(rpcWithRetryGo fn o rand fuel (attempt + 1)).invocations + 1,
       rpcDelayAt o rand attempt :: (rpcWithRetryGo fn o rand fuel (attempt + 1)).delays,
       (rpcWithRetryGo fn o rand fuel (attempt + 1)).outcome⟩ := by
  obtain ⟨hnr, hpred⟩ := hr
  have hf : fuel ≠ 0 := by omega
  cases hp : o.isRetryable with
  | none => simp [rpcWithRetryGo, h, hnr, hp, hf, rpcDelayAt, rawBackoff]
  | some p => simp [rpcWithRetryGo, h, hnr, hp, hpred p hp, hf, rpcDelayAt, rawBackoff]

theorem rpcGo_prefixFail {A : Type} (fn : Nat → Except JsError A) (o : RetryOptions)
    (rand : Nat → ℚ) :
    ∀ (k fuel attempt : Nat), k < fuel →
    (∀ i, attempt ≤ i → i < attempt + k →
      ∃ e, fn i = .error e ∧ RetryableFailure o e i) →
    rpcWithRetryGo fn o rand fuel attempt =
      ⟨(rpcWithRetryGo fn o rand (fuel - k) (attempt + k)).invocations + k,
       (List.range' attempt k).map (rpcDelayAt o rand) ++
         (rpcWithRetryGo fn o rand (fuel - k) (attempt + k)).delays,
       (rpcWithRetryGo fn o rand (fuel - k) (attempt + k)).outcome⟩ := by
  intro k
  induction k with
  | zero => intro fuel attempt _ _; simp
  | succ k ih =>
      intro fuel attempt hk hfail
      obtain ⟨e, he, hr⟩ := hfail attempt (le_refl _) (by omega)
      obtain ⟨fuel', rfl⟩ : ∃ fuel', fuel = fuel' + 1 := ⟨fuel - 1, by omega⟩
      rw [rpcGo_retryStep he hr (by omega)]
      rw [ih fuel' (attempt + 1) (by omega)
        (fun i h1 h2 => hfail i (by omega) (by omega))]
      have harith1 : fuel' + 1 - (k + 1) = fuel' - k := by omega
      have harith2 : attempt + (k + 1) = attempt + 1 + k := by omega
      rw [harith1, harith2, List.range'_succ]
      simp [Nat.add_assoc]

theorem oracleGo_ok {A : Type} {fn : Nat → Except JsError A} {o : OracleRetryOptions}
    {rand : Nat → ℚ} {fuel attempt : Nat} {v : A} (h : fn attempt = .ok v) :
    oracleWithRetryGo fn o rand (fuel + 1) attempt = ⟨1, [], .ok v⟩ := by
  simp [oracleWithRetryGo, h]

theorem oracleGo_finalFail {A : Type} {fn : Nat → Except JsError A} {o : OracleRetryOptions}
    {rand : Nat → ℚ} {attempt : Nat} {e : JsError} (h : fn attempt = .error e) :
    oracleWithRetryGo fn o rand 1 attempt =
      ⟨1, [], .error (.exhausted o.operationName o.maxAttempts e)⟩ := by
  simp [oracleWithRetryGo, h]

theorem oracleGo_retryStep {A : Type} {fn : Nat → Except JsError A} {o : OracleRetryOptions}
    {rand : Nat → ℚ} {fuel attempt : Nat} {e : JsError} (h : fn attempt = .error e)
    (hfuel : 1 ≤ fuel) :
    oracleWithRetryGo fn o rand (fuel + 1) attempt =
      ⟨(oracleWithRetryGo fn o rand fuel (attempt + 1)).invocations + 1,
       oracleDelayAt o rand attempt :: (oracleWithRetryGo fn o rand fuel (attempt + 1)).delays,
       (oracleWithRetryGo fn o rand fuel (attempt + 1)).outcome⟩ := by
  have hf : fuel ≠ 0 := by omega
  simp [oracleWithRetryGo, h, hf, oracleDelayAt, rawBackoff]

theorem oracleGo_prefixFail {A : Type} (fn : Nat → Except JsError A) (o : OracleRetryOptions)
    (rand : Nat → ℚ) :
    ∀ (k fuel attempt : Nat), k < fuel →
    (∀ i, attempt ≤ i → i < attempt + k → ∃ e, fn i = .error e) →
    oracleWithRetryGo fn o rand fuel attempt =
      ⟨(oracleWithRetryGo fn o rand (fuel - k) (attempt + k)).invocations + k,
       (List.range' attempt k).map (oracleDelayAt o rand) ++
         (oracleWithRetryGo fn o rand (fuel - k) (attempt + k)).delays,
       (oracleWithRetryGo fn o rand (fuel - k) (attempt + k)).outcome⟩ := by
  intro k
  induction k with
  | zero => intro fuel attempt _ _; simp
  | succ k ih =>
      intro fuel attempt hk hfail
      obtain ⟨e, he⟩ := hfail attempt (le_refl _) (by omega)
      obtain ⟨fuel', rfl⟩ : ∃ fuel', fuel = fuel' + 1 := ⟨fuel - 1, by omega⟩
      rw [oracleGo_retryStep he (by omega)]
      rw [ih fuel' (attempt + 1) (by omega)
        (fun i h1 h2 => hfail i (by omega) (by omega))]
      have harith1 : fuel' + 1 - (k + 1) = fuel' - k := by omega
      have harith2 : attempt + (k + 1) = attempt + 1 + k := by omega
      rw [harith1, harith2, List.range'_succ]
      simp [Nat.add_assoc]

/-- Characterisation of a full all-failing run of the oracle-module
engine: `maxAttempts` invocations, one backoff per non-final attempt,
and the `RpcExhaustedError` carries the final attempt's error. -/
theorem oracleWithRetry_allFail {A : Type} (fn : Nat → Except JsError A)
    (errs : Nat → JsError) (o : OracleRetryOptions) (rand : Nat → ℚ)
    (hN : 1 ≤ o.maxAttempts)
    (hfail : ∀ i, 1 ≤ i → i ≤ o.maxAttempts → fn i = .error (errs i)) :
    oracleWithRetry fn o rand =
      ⟨o.maxAttempts,
       (List.range' 1 (o.maxAttempts - 1)).map (oracleDelayAt o rand),
       .error (.exhausted o.operationName o.maxAttempts (errs o.maxAttempts))⟩ := by
  unfold oracleWithRetry
  rw [oracleGo_prefixFail fn o rand (o.maxAttempts - 1)
    o.maxAttempts 1 (by omega)
    (fun i h1 h2 => ⟨errs i, hfail i h1 (by omega)⟩)]
  have h1 : o.maxAttempts - (o.maxAttempts - 1) = 1 := by omega
  have h2 : 1 + (o.maxAttempts - 1) = o.maxAttempts := by omega
  rw [h1, oracleGo_finalFail (e := errs (1 + (o.maxAttempts - 1)))
    (by rw [h2]; exact hfail o.maxAttempts hN (le_refl _))]
  simp [h2]

/-- Characterisation of a full all-failing run of the rpc-module engine
when every failure is retryable: `maxAttempts` invocations, one backoff
per non-final attempt, and the `RpcExhaustedError` carries the final
attempt's error. -/
theorem rpcWithRetry_allFail {A : Type} (fn : Nat → Except JsError A)
    (errs : Nat → JsError) (o : RetryOptions) (rand : Nat → ℚ)
    (hN : 1 ≤ o.maxAttempts)
    (hfail : ∀ i, 1 ≤ i → i ≤ o.maxAttempts →
      fn i = .error (errs i) ∧ RetryableFailure o (errs i) i) :
    rpcWithRetry fn o rand =
      ⟨o.maxAttempts,
       (List.range' 1 (o.maxAttempts - 1)).map (rpcDelayAt o rand),
       .error (.exhausted o.operationName o.maxAttempts (errs o.maxAttempts))⟩ := by
  unfold rpcWithRetry
  rw [rpcGo_prefixFail fn o rand (o.maxAttempts - 1)
    o.maxAttempts 1 (by omega)
    (fun i h1 h2 => ⟨errs i, (hfail i h1 (by omega)).1, (hfail i h1 (by omega)).2⟩)]
  have h1 : o.maxAttempts - (o.maxAttempts - 1) = 1 := by omega
  have h2 : 1 + (o.maxAttempts - 1) = o.maxAttempts := by omega
  rw [h1, rpcGo_finalFail (e := errs (1 + (o.maxAttempts - 1)))
    (by rw [h2]; exact (hfail o.maxAttempts hN (le_refl _)).1)
    (by rw [h2]; exact (hfail o.maxAttempts hN (le_refl _)).2)]
  simp [h2]

/-- Characterisation of an oracle-module run that fails on the first
`a - 1` attempts and succeeds at attempt `a ≤ maxAttempts`: `a`
invocations, `a - 1` backoffs, success value returned. -/
theorem oracleWithRetry_succeedAt {A : Type} (fn : Nat → Except JsError A)
    (o : OracleRetryOptions) (rand : Nat → ℚ) (a : Nat) (v : A)
    (ha1 : 1 ≤ a) (ha2 : a ≤ o.maxAttempts)
    (hfail : ∀ i, 1 ≤ i → i < a → ∃ e, fn i = .error e)
    (hok : fn a = .ok v) :
    oracleWithRetry fn o rand =
      ⟨a, (List.range' 1 (a - 1)).map (oracleDelayAt o rand), .ok v⟩ := by
  unfold oracleWithRetry
  rw [oracleGo_prefixFail fn o rand (a - 1) o.maxAttempts 1 (by omega)
    (fun i h1 h2 => hfail i h1 (by omega))]
  have h2 : 1 + (a - 1) = a := by omega
  obtain ⟨fuel', hf⟩ : ∃ fuel', o.maxAttempts - (a - 1) = fuel' + 1 := ⟨o.maxAttempts - a, by omega⟩
  rw [hf, h2, oracleGo_ok hok]
  simp
  omega

/-! ## Claims -/

/-- C1 (amended): for every policy with maxAttempts = N ≥ 1 and every
operation that fails on all invocations *with retryable failures* (none
flagged `RpcNonRetryableError` and none rejected by a configured
predicate), `withRetry` of `rpc-retry.util.ts` invokes the operation
exactly N times, performs no backoff sleep after the final (N-th)
failure (exactly N − 1 sleeps occur, one after each non-final attempt),
and raises an `RpcExhaustedError` carrying the operation label,
attempts = N, and the last observed error. -/
theorem claim_C1 {A : Type} (o : RetryOptions) (fn : Nat → Except JsError A)
    (errs : Nat → JsError) (rand : Nat → ℚ) (hN : 1 ≤ o.maxAttempts)
    (hfail : ∀ i, 1 ≤ i → i ≤ o.maxAttempts →
      fn i = .error (errs i) ∧ RetryableFailure o (errs i) i) :
    (rpcWithRetry fn o rand).invocations = o.maxAttempts ∧
    (rpcWithRetry fn o rand).delays.length = o.maxAttempts - 1 ∧
    (rpcWithRetry fn o rand).outcome =
      .error (.exhausted o.operationName o.maxAttempts (errs o.maxAttempts)) := by
  rw [rpcWithRetry_allFail fn errs o rand hN hfail]
  refine ⟨rfl, ?_, rfl⟩
  simp

/-- Witness for C1 at maxAttempts = 2 and a plain always-failing
operation. -/
theorem claim_C1_witness :
    (rpcWithRetry alwaysBoom { maxAttempts := 2 } halfRand).invocations = 2 ∧
    (rpcWithRetry alwaysBoom { maxAttempts := 2 } halfRand).delays.length = 1 ∧
    (rpcWithRetry alwaysBoom { maxAttempts := 2 } halfRand).outcome =
      .error (.exhausted "rpc" 2 (.plain "boom")) :=
  claim_C1 { maxAttempts := 2 } alwaysBoom (fun _ => .plain "boom") halfRand
    (by decide)
    (fun i h1 h2 => ⟨rfl, rfl, fun p hp => nomatch hp⟩)

/-- Counterexample to C1 as stated: an operation that fails on all
invocations with an `RpcNonRetryableError` under maxAttempts = 2 is
invoked once, not twice, and the raised error is the non-retryable
error itself, not an `RpcExhaustedError` with attempts = 2. -/
theorem claim_C1_counterexample :
    (rpcWithRetry (fun _ => (.error (.rpcNonRetryableBare "bad request") : Except JsError Unit))
        { maxAttempts := 2 } halfRand).invocations = 1 ∧
    (rpcWithRetry (fun _ => (.error (.rpcNonRetryableBare "bad request") : Except JsError Unit))
        { maxAttempts := 2 } halfRand).invocations ≠ 2 ∧
    (rpcWithRetry (fun _ => (.error (.rpcNonRetryableBare "bad request") : Except JsError Unit))
        { maxAttempts := 2 } halfRand).outcome =
      .error (.rpcNonRetryableBare "bad request") := by
  decide

/-- C3: for every policy with maxAttempts ≥ 1, an operation whose first
failure is flagged explicitly non-retryable (or rejected by the
configured `isRetryable` predicate) is invoked exactly once, with no
delay slept, and the failure propagates as a non-retryable error. -/
theorem claim_C3 {A : Type} (o : RetryOptions) (fn : Nat → Except JsError A)
    (rand : Nat → ℚ) (e : JsError) (hN : 1 ≤ o.maxAttempts)
    (h1 : fn 1 = .error e)
    (hnr : e.isRpcNonRetryable = true ∨
      ∃ p, o.isRetryable = some p ∧ p e 1 = false) :
    ∃ e', rpcWithRetry fn o rand = ⟨1, [], .error e'⟩ ∧
      e'.isRpcNonRetryable = true := by
  obtain ⟨m, hm⟩ : ∃ m, o.maxAttempts = m + 1 := ⟨o.maxAttempts - 1, by omega⟩
  unfold rpcWithRetry
  rw [hm]
  by_cases hc : e.isRpcNonRetryable = true
  · exact ⟨e, rpcGo_nonRetryable h1 hc, hc⟩
  · obtain ⟨p, hp, hrej⟩ := hnr.resolve_left hc
    exact ⟨_, rpcGo_predicateReject h1 (by simpa using hc) hp hrej, rfl⟩

/-- Witness for C3: a 400-class failure rejected by the default Soroban
predicate on the first attempt, under maxAttempts = 4. -/
theorem claim_C3_witness :
    ∃ e', rpcWithRetry (fun _ => (.error (.plain "HTTP 400 bad request") : Except JsError Unit))
        { isRetryable := some (fun e _a => defaultSorobanIsRetryable e) } halfRand =
      ⟨1, [], .error e'⟩ ∧ e'.isRpcNonRetryable = true :=
  claim_C3 { isRetryable := some (fun e _a => defaultSorobanIsRetryable e) }
    (fun _ => (.error (.plain "HTTP 400 bad request") : Except JsError Unit)) halfRand
    (.plain "HTTP 400 bad request") (by decide) rfl
    (Or.inr ⟨_, rfl, by decide⟩)

/-- Bounds on the slept backoff: with a valid policy and a draw in
[0, 1], the rounded delay after attempt `i` is non-negative and lies
within half a millisecond of the jitter interval around the capped raw
delay, hence never exceeds `maxDelayMs * (1 + jitter) + 1/2`. -/
theorem rpcDelayAt_bounds (o : RetryOptions) (rand : Nat → ℚ) (i : Nat)
    (hb : 0 < o.baseDelayMs) (hbm : o.baseDelayMs ≤ o.maxDelayMs)
    (hf : 1 ≤ o.factor) (hj0 : 0 ≤ o.jitter) (_hj1 : o.jitter ≤ 1)
    (hr0 : 0 ≤ rand i) (hr1 : rand i ≤ 1) :
    0 ≤ rpcDelayAt o rand i ∧
    rawBackoff o.baseDelayMs o.factor o.maxDelayMs i * (1 - o.jitter) - 1/2 ≤
      (rpcDelayAt o rand i : ℚ) ∧
    (rpcDelayAt o rand i : ℚ) ≤
      rawBackoff o.baseDelayMs o.factor o.maxDelayMs i * (1 + o.jitter) + 1/2 ∧
    (rpcDelayAt o rand i : ℚ) ≤ o.maxDelayMs * (1 + o.jitter) + 1/2 := by
  have hmd : (0 : ℚ) ≤ o.maxDelayMs := le_trans hb.le hbm
  have hpow : (0 : ℚ) ≤ o.factor ^ (i - 1) := pow_nonneg (by linarith) _
  have hraw0 : 0 ≤ rawBackoff o.baseDelayMs o.factor o.maxDelayMs i :=
    le_min (mul_nonneg hb.le hpow) hmd
  have hrawle : rawBackoff o.baseDelayMs o.factor o.maxDelayMs i ≤ o.maxDelayMs :=
    min_le_right _ _
  have hdel : rpcDelayAt o rand i =
      max 0 (roundJs (rawBackoff o.baseDelayMs o.factor o.maxDelayMs i +
        rawBackoff o.baseDelayMs o.factor o.maxDelayMs i * o.jitter *
          (rand i * 2 - 1))) := rfl
  generalize hR : rawBackoff o.baseDelayMs o.factor o.maxDelayMs i = raw at *
  generalize hX : raw + raw * o.jitter * (rand i * 2 - 1) = x at *
  have hu1 : rand i * 2 - 1 ≤ 1 := by linarith
  have hu2 : -1 ≤ rand i * 2 - 1 := by linarith
  have hrj : 0 ≤ raw * o.jitter := mul_nonneg hraw0 hj0
  have hxle : x ≤ raw * (1 + o.jitter) := by
    have hl := mul_le_mul_of_nonneg_left hu1 hrj
    nlinarith [hl]
  have hxge : raw * (1 - o.jitter) ≤ x := by
    have hl := mul_le_mul_of_nonneg_left hu2 hrj
    nlinarith [hl]
  have hb1 : (0 : ℚ) ≤ raw * (1 + o.jitter) := mul_nonneg hraw0 (by linarith)
  have hfl1 : ((roundJs x : ℤ) : ℚ) ≤ x + 1/2 := Int.floor_le (x + 1/2)
  have hfl2 : x - 1/2 < ((roundJs x : ℤ) : ℚ) := by
    have := Int.sub_one_lt_floor (x + 1/2)
    unfold roundJs
    linarith
  have hcast : ((max 0 (roundJs x) : ℤ) : ℚ) = max 0 ((roundJs x : ℤ) : ℚ) := by
    push_cast
    rfl
  refine ⟨?_, ?_, ?_, ?_⟩
  · rw [hdel]; exact le_max_left 0 _
  · rw [hdel, hcast]
    have : x - 1/2 ≤ max 0 ((roundJs x : ℤ) : ℚ) :=
      le_trans hfl2.le (le_max_right _ _)
    linarith
  · rw [hdel, hcast]
    refine max_le (by linarith) (by linarith)
  · rw [hdel, hcast]
    have hmm : raw * (1 + o.jitter) ≤ o.maxDelayMs * (1 + o.jitter) :=
      mul_le_mul_of_nonneg_right hrawle (by linarith)
    refine max_le (by linarith) (by linarith)

/-- C2 (amended): for every valid policy (baseDelay > 0,
baseDelay ≤ maxDelay, growthFactor ≥ 1, jitterFraction ∈ [0, 1]),
jitter draws in [0, 1], and an all-failing retryable run of
`withRetry`, the sleeps are exactly one per non-final attempt — attempt
1 fires with no delay, and the sleep between attempts i and i+1 is the
rounded, clamped `rpcDelayAt` value — and each such sleep lies within
half a millisecond (the rounding granularity) of the symmetric jitter
interval around the *capped* raw delay
`min(baseDelay * factor ^ (i - 1), maxDelay)`, and never exceeds
`maxDelay * (1 + jitter) + 1/2`. -/
theorem claim_C2 {A : Type} (o : RetryOptions) (fn : Nat → Except JsError A)
    (errs : Nat → JsError) (rand : Nat → ℚ)
    (hN : 1 ≤ o.maxAttempts)
    (hfail : ∀ i, 1 ≤ i → i ≤ o.maxAttempts →
      fn i = .error (errs i) ∧ RetryableFailure o (errs i) i)
    (hb : 0 < o.baseDelayMs) (hbm : o.baseDelayMs ≤ o.maxDelayMs)
    (hf : 1 ≤ o.factor) (hj0 : 0 ≤ o.jitter) (hj1 : o.jitter ≤ 1)
    (hrand : ∀ i, 0 ≤ rand i ∧ rand i ≤ 1) :
    (rpcWithRetry fn o rand).delays =
      (List.range' 1 (o.maxAttempts - 1)).map (rpcDelayAt o rand) ∧
    ∀ i, 1 ≤ i →
      0 ≤ rpcDelayAt o rand i ∧
      rawBackoff o.baseDelayMs o.factor o.maxDelayMs i * (1 - o.jitter) - 1/2 ≤
        (rpcDelayAt o rand i : ℚ) ∧
      (rpcDelayAt o rand i : ℚ) ≤
        rawBackoff o.baseDelayMs o.factor o.maxDelayMs i * (1 + o.jitter) + 1/2 ∧
      (rpcDelayAt o rand i : ℚ) ≤ o.maxDelayMs * (1 + o.jitter) + 1/2 := by
  refine ⟨?_, ?_⟩
  · rw [rpcWithRetry_allFail fn errs o rand hN hfail]
  · intro i _
    exact rpcDelayAt_bounds o rand i hb hbm hf hj0 hj1 (hrand i).1 (hrand i).2

/-- Witness for C2 at maxAttempts = 2 with zero-jitter draws. -/
theorem claim_C2_witness :
    (rpcWithRetry alwaysBoom { maxAttempts := 2 } halfRand).delays =
      (List.range' 1 (2 - 1)).map (rpcDelayAt { maxAttempts := 2 } halfRand) ∧
    0 ≤ rpcDelayAt { maxAttempts := 2 } halfRand 1 ∧
    rawBackoff 1000 2 30000 1 * (1 - 1/5) - 1/2 ≤
      (rpcDelayAt { maxAttempts := 2 } halfRand 1 : ℚ) ∧
    (rpcDelayAt { maxAttempts := 2 } halfRand 1 : ℚ) ≤
      rawBackoff 1000 2 30000 1 * (1 + 1/5) + 1/2 ∧
    (rpcDelayAt { maxAttempts := 2 } halfRand 1 : ℚ) ≤ 30000 * (1 + 1/5) + 1/2 := by
  have h := claim_C2 { maxAttempts := 2 } alwaysBoom (fun _ => .plain "boom") halfRand
    (by decide)
    (fun i h1 h2 => ⟨rfl, rfl, fun p hp => nomatch hp⟩)
    (by norm_num) (by norm_num) (by norm_num) (by norm_num) (by norm_num)
    (fun _ => ⟨by norm_num [halfRand], by norm_num [halfRand]⟩)
  exact ⟨h.1, (h.2 1 le_rfl).1, (h.2 1 le_rfl).2.1, (h.2 1 le_rfl).2.2.1,
    (h.2 1 le_rfl).2.2.2⟩

/-- Counterexample to C2 as stated: once the cap binds, the slept delay
leaves the claimed interval [b·f^(i−1)·(1−j), b·f^(i−1)·(1+j)].  With
baseDelay 1000, factor 2, jitter 1/5, maxDelay 1500 and a zero-jitter
draw, the delay slept before attempt 3 (i = 2) is 1500 ms, but the
claimed lower bound is 1000·2·(1−1/5) = 1600 ms. -/
theorem claim_C2_counterexample :
    (rpcWithRetry alwaysBoom { maxAttempts := 3, maxDelayMs := 1500 } halfRand).delays.getD 1 0 =
      1500 ∧
    ¬ ((1000 * 2 ^ (2 - 1) * (1 - 1/5) : ℚ) ≤ ((1500 : ℤ) : ℚ)) := by
  constructor
  · rw [rpcWithRetry_allFail alwaysBoom (fun _ => .plain "boom")
      { maxAttempts := 3, maxDelayMs := 1500 } halfRand (by decide)
      (fun i h1 h2 => ⟨rfl, rfl, fun p hp => nomatch hp⟩)]
    norm_num [List.range', rpcDelayAt, rawBackoff, halfRand, roundJs, Int.floor_eq_iff]
  · norm_num

/-- A non-retryable error value is never an `RpcExhaustedError`. -/
theorem nonRetryable_ne_exhausted (e : JsError) (h : e.isRpcNonRetryable = true) :
    ∀ op n le, e ≠ .exhausted op n le := by
  intro op n le heq
  subst heq
  simp [JsError.isRpcNonRetryable] at h

/-- C9: non-retryable classification takes precedence over exhaustion.
If the run reaches the final attempt (all earlier failures retryable)
and the final failure is an `RpcNonRetryableError` or is rejected by
the configured predicate, `withRetry` of `rpc-retry.util.ts` makes
exactly maxAttempts invocations and propagates a non-retryable error —
not an `RpcExhaustedError`. -/
theorem claim_C9 {A : Type} (o : RetryOptions) (fn : Nat → Except JsError A)
    (errs : Nat → JsError) (rand : Nat → ℚ) (eN : JsError)
    (hN : 1 ≤ o.maxAttempts)
    (hpre : ∀ i, 1 ≤ i → i < o.maxAttempts →
      fn i = .error (errs i) ∧ RetryableFailure o (errs i) i)
    (hlast : fn o.maxAttempts = .error eN)
    (hnr : eN.isRpcNonRetryable = true ∨
      ∃ p, o.isRetryable = some p ∧ p eN o.maxAttempts = false) :
    ∃ e', (rpcWithRetry fn o rand).invocations = o.maxAttempts ∧
      (rpcWithRetry fn o rand).outcome = .error e' ∧
      e'.isRpcNonRetryable = true ∧
      ∀ op n le, e' ≠ .exhausted op n le := by
  unfold rpcWithRetry
  rw [rpcGo_prefixFail fn o rand (o.maxAttempts - 1) o.maxAttempts 1 (by omega)
    (fun i h1 h2 => ⟨errs i, (hpre i h1 (by omega)).1, (hpre i h1 (by omega)).2⟩)]
  have h1 : o.maxAttempts - (o.maxAttempts - 1) = 1 := by omega
  have h2 : 1 + (o.maxAttempts - 1) = o.maxAttempts := by omega
  rw [h1, h2]
  by_cases hc : eN.isRpcNonRetryable = true
  · have hfin : rpcWithRetryGo fn o rand 1 o.maxAttempts = ⟨1, [], .error eN⟩ :=
      rpcGo_nonRetryable hlast hc
    rw [hfin]
    exact ⟨eN, by simp; omega, rfl, hc, nonRetryable_ne_exhausted eN hc⟩
  · obtain ⟨p, hp, hrej⟩ := hnr.resolve_left hc
    have hfin : rpcWithRetryGo fn o rand 1 o.maxAttempts =
        ⟨1, [], .error (.rpcNonRetryableCaused
          ("Non-retryable error on \"" ++ o.operationName ++ "\": " ++ eN.message) eN)⟩ :=
      rpcGo_predicateReject hlast (by simpa using hc) hp hrej
    rw [hfin]
    exact ⟨_, by simp; omega, rfl, rfl, nonRetryable_ne_exhausted _ rfl⟩

/-- Witness for C9: default predicate rejects a 404-class failure at
the final attempt of a 2-attempt budget after a retryable 500-class
failure at attempt 1. -/
theorem claim_C9_witness :
    ∃ e', (rpcWithRetry
        (fun i => if i = 1 then (.error (.plain "HTTP 500") : Except JsError Unit)
                  else .error (.plain "HTTP 404 not found"))
        { maxAttempts := 2, isRetryable := some (fun e _a => defaultSorobanIsRetryable e) }
        halfRand).invocations = 2 ∧
      (rpcWithRetry
        (fun i => if i = 1 then (.error (.plain "HTTP 500") : Except JsError Unit)
                  else .error (.plain "HTTP 404 not found"))
        { maxAttempts := 2, isRetryable := some (fun e _a => defaultSorobanIsRetryable e) }
        halfRand).outcome = .error e' ∧
      e'.isRpcNonRetryable = true ∧
      ∀ op n le, e' ≠ .exhausted op n le :=
  claim_C9 { maxAttempts := 2, isRetryable := some (fun e _a => defaultSorobanIsRetryable e) }
    (fun i => if i = 1 then (.error (.plain "HTTP 500") : Except JsError Unit)
              else .error (.plain "HTTP 404 not found"))
    (fun _ => .plain "HTTP 500") halfRand (.plain "HTTP 404 not found")
    (by decide)
    (fun i hi1 hi2 => by
      have hi2' : i < 2 := hi2
      have : i = 1 := by omega
      subst this
      exact ⟨rfl, rfl, fun p hp => by
        injection hp with hp
        subst hp
        decide⟩)
    (by decide)
    (Or.inr ⟨_, rfl, by decide⟩)

/-- The two retry-engine loop bodies agree step for step when no
retryability predicate is configured and no failure is an
`RpcNonRetryableError`. -/
theorem rpcOracleGo_agree {A : Type} (fn : Nat → Except JsError A) (m : Nat)
    (b f md j : ℚ) (L : String) (rand : Nat → ℚ)
    (hnr : ∀ i e, fn i = .error e → e.isRpcNonRetryable = false) :
    ∀ fuel attempt,
      rpcWithRetryGo fn ⟨m, b, f, md, j, none, L⟩ rand fuel attempt =
        oracleWithRetryGo fn ⟨m, b, f, md, j, L⟩ rand fuel attempt := by
  intro fuel
  induction fuel with
  | zero => intro attempt; rfl
  | succ fuel ih =>
      intro attempt
      cases hfn : fn attempt with
      | ok v => simp [rpcWithRetryGo, oracleWithRetryGo, hfn]
      | error e =>
          have h := hnr attempt e hfn
          by_cases hz : fuel = 0
          · subst hz
            simp [rpcWithRetryGo, oracleWithRetryGo, hfn, h]
          · simp [rpcWithRetryGo, oracleWithRetryGo, hfn, h, hz, ih]

/-- C10 (amended): on option sets that configure no `isRetryable`
predicate *and spell out the operation label*, and for operations none
of whose failures is an `RpcNonRetryableError`, the `withRetry` of
`rpc-retry.util.ts` and the `withRetry` of `oracle.service.ts` make the
same invocations, sleep the same delays, and produce the same outcome
under identical jitter draws. -/
theorem claim_C10 {A : Type} (fn : Nat → Except JsError A) (m : Nat)
    (b f md j : ℚ) (L : String) (rand : Nat → ℚ)
    (hnr : ∀ i e, fn i = .error e → e.isRpcNonRetryable = false) :
    rpcWithRetry fn ⟨m, b, f, md, j, none, L⟩ rand =
      oracleWithRetry fn ⟨m, b, f, md, j, L⟩ rand :=
  rpcOracleGo_agree fn m b f md j L rand hnr m 1

/-- Witness for C10 on the shared defaults with label "op". -/
theorem claim_C10_witness :
    rpcWithRetry alwaysBoom ⟨4, 1000, 2, 30000, 1/5, none, "op"⟩ halfRand =
      oracleWithRetry alwaysBoom ⟨4, 1000, 2, 30000, 1/5, "op"⟩ halfRand :=
  claim_C10 alwaysBoom 4 1000 2 30000 (1/5) "op" halfRand
    (fun i e h => by
      simp [alwaysBoom] at h
      subst h
      rfl)

/-- Counterexample to C10 as stated: with the operation label left to
default, the same always-failing operation yields an
`RpcExhaustedError` labelled "rpc" from the rpc module but "operation"
from the oracle module, so the outcomes differ. -/
theorem claim_C10_counterexample :
    rpcWithRetry alwaysBoom { maxAttempts := 1 } halfRand ≠
      oracleWithRetry alwaysBoom { maxAttempts := 1 } halfRand := by
  decide

/-- Shared bound: however many consecutive transport failures occur,
never more than `maxReconnects − count` further reconnects are
scheduled. -/
theorem reconnectTrace_length_le : ∀ n c : Nat,
    (reconnectTrace n c).1.length ≤ LISTENER_MAX_RECONNECTS - c := by
  intro n
  induction n with
  | zero => intro c; simp [reconnectTrace]
  | succ n ih =>
      intro c
      unfold reconnectTrace scheduleReconnect
      by_cases hc : c ≥ LISTENER_MAX_RECONNECTS
      · simp [hc]
      · simp only [hc, if_false, ite_false]
        have := ih (c + 1)
        simp only [LISTENER_MAX_RECONNECTS] at *
        simp
        omega

/-- C4 (amended): consecutive transport failures starting from counter
0 schedule exactly 10 reconnects — the k-th waiting
min(10000 · 2^(k−1), 300000) ms — and the give-up transition fires on
the 11th consecutive failure, scheduling nothing; `scheduleReconnect`
gives up exactly when the counter has reached 10, and no 11th reconnect
is ever scheduled no matter how many failures occur. -/
theorem claim_C4 :
    reconnectTrace 11 0 =
      ([10000, 20000, 40000, 80000, 160000, 300000, 300000, 300000, 300000, 300000],
       true) ∧
    (∀ count, scheduleReconnect count = .gaveUp ↔ LISTENER_MAX_RECONNECTS ≤ count) ∧
    (∀ count, count < LISTENER_MAX_RECONNECTS →
      scheduleReconnect count =
        .scheduled (min (LISTENER_RECONNECT_DELAY_MS * 2 ^ count) 300000) (count + 1)) ∧
    (∀ n, (reconnectTrace n 0).1.length ≤ LISTENER_MAX_RECONNECTS) := by
  refine ⟨by decide, ?_, ?_, ?_⟩
  · intro count
    unfold scheduleReconnect
    by_cases hc : LISTENER_MAX_RECONNECTS ≤ count
    · simp [hc]
    · simp [hc]
  · intro count hc
    unfold scheduleReconnect
    simp [Nat.not_le.mpr hc]
  · intro n
    have := reconnectTrace_length_le n 0
    omega

/-- Witness for C4's conditional clauses at failure counter 5 and a
25-failure burst. -/
theorem claim_C4_witness :
    scheduleReconnect 5 =
      .scheduled (min (LISTENER_RECONNECT_DELAY_MS * 2 ^ 5) 300000) 6 ∧
    (reconnectTrace 25 0).1.length ≤ LISTENER_MAX_RECONNECTS :=
  ⟨claim_C4.2.2.1 5 (by decide), claim_C4.2.2.2 25⟩

/-- Counterexample to C4 as stated: after exactly 10 consecutive
transport failures all 10 reconnects have been scheduled but the
give-up branch has not run — the listener only reaches GaveUp on the
11th consecutive failure. -/
theorem claim_C4_counterexample :
    (reconnectTrace 10 0).1.length = 10 ∧ (reconnectTrace 10 0).2 = false := by
  decide

/-- C5: `fetchIpfsData` walks the fixed gateway list in order, each
gateway wrapped in an independent 3-attempt / 500 ms-base retry budget
around a 6000 ms-timeout fetch; gateways before the first one that can
succeed are each tried to exhaustion, the first success short-circuits
(later gateways are never contacted), and if all four gateways exhaust
their budgets a single `RpcExhaustedError` referencing `ipfs:cid`,
12 attempts, and the last observed error is raised. -/
theorem claim_C5 (cid : String) (net : String → Nat → Nat → Except JsError IpfsJson)
    (rand : Nat → Nat → ℚ) (hcid : ¬ (cid = "QmMockCID")) :
    (∀ (errs : Nat → Nat → JsError) (d : IpfsJson),
      (∀ a, 1 ≤ a → a ≤ 3 →
        net ("http://localhost:3001/calls/ipfs/" ++ cid) 6000 a = .error (errs 0 a)) →
      (∀ a, 1 ≤ a → a ≤ 3 →
        net ("https://gateway.pinata.cloud/ipfs/" ++ cid) 6000 a = .error (errs 1 a)) →
      net ("https://ipfs.io/ipfs/" ++ cid) 6000 1 = .ok d →
      fetchIpfsData cid net rand =
        ⟨[("http://localhost:3001/calls/ipfs/" ++ cid, 3),
          ("https://gateway.pinata.cloud/ipfs/" ++ cid, 3),
          ("https://ipfs.io/ipfs/" ++ cid, 1)], .ok d⟩) ∧
    (∀ errs : Nat → Nat → JsError,
      (∀ g a, g < 4 → 1 ≤ a → a ≤ 3 →
        net ((ipfsGateways cid).getD g "") 6000 a = .error (errs g a)) →
      fetchIpfsData cid net rand =
        ⟨[("http://localhost:3001/calls/ipfs/" ++ cid, 3),
          ("https://gateway.pinata.cloud/ipfs/" ++ cid, 3),
          ("https://ipfs.io/ipfs/" ++ cid, 3),
          ("https://dweb.link/ipfs/" ++ cid, 3)],
         .error (.exhausted ("ipfs:" ++ cid) 12
           (.exhausted (gatewayOperationName ("https://dweb.link/ipfs/" ++ cid)) 3
             (errs 3 3)))⟩) := by
  constructor
  · intro errs d h0 h1 h2
    have g0 : fetchIpfsGateway net (rand 0) ("http://localhost:3001/calls/ipfs/" ++ cid) =
        ⟨3, (List.range' 1 (3 - 1)).map (oracleDelayAt
          { maxAttempts := 3, baseDelayMs := 500,
            operationName := gatewayOperationName ("http://localhost:3001/calls/ipfs/" ++ cid) }
          (rand 0)),
         .error (.exhausted
           (gatewayOperationName ("http://localhost:3001/calls/ipfs/" ++ cid)) 3
           (errs 0 3))⟩ :=
      oracleWithRetry_allFail _ (errs 0) _ (rand 0) (of_decide_eq_true rfl)
        (fun i hi1 hi2 => h0 i hi1 hi2)
    have g1 : fetchIpfsGateway net (rand 1) ("https://gateway.pinata.cloud/ipfs/" ++ cid) =
        ⟨3, (List.range' 1 (3 - 1)).map (oracleDelayAt
          { maxAttempts := 3, baseDelayMs := 500,
            operationName := gatewayOperationName ("https://gateway.pinata.cloud/ipfs/" ++ cid) }
          (rand 1)),
         .error (.exhausted
           (gatewayOperationName ("https://gateway.pinata.cloud/ipfs/" ++ cid)) 3
           (errs 1 3))⟩ :=
      oracleWithRetry_allFail _ (errs 1) _ (rand 1) (of_decide_eq_true rfl)
        (fun i hi1 hi2 => h1 i hi1 hi2)
    have g2 : fetchIpfsGateway net (rand 2) ("https://ipfs.io/ipfs/" ++ cid) =
        ⟨1, [], .ok d⟩ :=
      oracleWithRetry_succeedAt _ _ (rand 2) 1 d (le_refl 1) (of_decide_eq_true rfl)
        (fun i hi1 hi2 => absurd (lt_of_le_of_lt hi1 hi2) (lt_irrefl 1))
      h2
    unfold fetchIpfsData
    rw [if_neg hcid]
    simp only [ipfsGateways, fetchIpfsGo, g0, g1, g2]
  · intro errs h
    have g0 : fetchIpfsGateway net (rand 0) ("http://localhost:3001/calls/ipfs/" ++ cid) =
        ⟨3, (List.range' 1 (3 - 1)).map (oracleDelayAt
          { maxAttempts := 3, baseDelayMs := 500,
            operationName := gatewayOperationName ("http://localhost:3001/calls/ipfs/" ++ cid) }
          (rand 0)),
         .error (.exhausted
           (gatewayOperationName ("http://localhost:3001/calls/ipfs/" ++ cid)) 3
           (errs 0 3))⟩ :=
      oracleWithRetry_allFail _ (errs 0) _ (rand 0) (of_decide_eq_true rfl)
        (fun i hi1 hi2 => h 0 i (by decide) hi1 hi2)
    have g1 : fetchIpfsGateway net (rand 1) ("https://gateway.pinata.cloud/ipfs/" ++ cid) =
        ⟨3, (List.range' 1 (3 - 1)).map (oracleDelayAt
          { maxAttempts := 3, baseDelayMs := 500,
            operationName := gatewayOperationName ("https://gateway.pinata.cloud/ipfs/" ++ cid) }
          (rand 1)),
         .error (.exhausted
           (gatewayOperationName ("https://gateway.pinata.cloud/ipfs/" ++ cid)) 3
           (errs 1 3))⟩ :=
      oracleWithRetry_allFail _ (errs 1) _ (rand 1) (of_decide_eq_true rfl)
        (fun i hi1 hi2 => h 1 i (by decide) hi1 hi2)
    have g2 : fetchIpfsGateway net (rand 2) ("https://ipfs.io/ipfs/" ++ cid) =
        ⟨3, (List.range' 1 (3 - 1)).map (oracleDelayAt
          { maxAttempts := 3, baseDelayMs := 500,
            operationName := gatewayOperationName ("https://ipfs.io/ipfs/" ++ cid) }
          (rand 2)),
         .error (.exhausted
           (gatewayOperationName ("https://ipfs.io/ipfs/" ++ cid)) 3
           (errs 2 3))⟩ :=
      oracleWithRetry_allFail _ (errs 2) _ (rand 2) (of_decide_eq_true rfl)
        (fun i hi1 hi2 => h 2 i (by decide) hi1 hi2)
    have g3 : fetchIpfsGateway net (rand 3) ("https://dweb.link/ipfs/" ++ cid) =
        ⟨3, (List.range' 1 (3 - 1)).map (oracleDelayAt
          { maxAttempts := 3, baseDelayMs := 500,
            operationName := gatewayOperationName ("https://dweb.link/ipfs/" ++ cid) }
          (rand 3)),
         .error (.exhausted
           (gatewayOperationName ("https://dweb.link/ipfs/" ++ cid)) 3
           (errs 3 3))⟩ :=
      oracleWithRetry_allFail _ (errs 3) _ (rand 3) (of_decide_eq_true rfl)
        (fun i hi1 hi2 => h 3 i (by decide) hi1 hi2)
    unfold fetchIpfsData
    rw [if_neg hcid]
    simp only [ipfsGateways, fetchIpfsGo, g0, g1, g2, g3]
    simp [List.length]

/-- Witness for C5: with only the third gateway answering, gateways 1
and 2 are each tried to exhaustion and gateway 3 once. -/
theorem claim_C5_witness :
    fetchIpfsData "abc" ipfsIoOnlyNet halfRand2 =
      ⟨[("http://localhost:3001/calls/ipfs/" ++ "abc", 3),
        ("https://gateway.pinata.cloud/ipfs/" ++ "abc", 3),
        ("https://ipfs.io/ipfs/" ++ "abc", 1)], .ok [("k", "v")]⟩ :=
  (claim_C5 "abc" ipfsIoOnlyNet halfRand2 (by decide)).1 downErrs [("k", "v")]
    (fun a _ _ => rfl) (fun a _ _ => rfl) rfl

/-- Appending a fresh record with the looked-up identifier makes it the
one `findOne` returns when the store had none. -/
theorem findOne_append_self (db : CallsDb) (c : Call) (id : String)
    (hnone : findOneByOnchainId db id = none) (hid : c.callOnchainId = id) :
    findOneByOnchainId (db ++ [c]) id = some c := by
  unfold findOneByOnchainId at hnone ⊢
  rw [List.find?_append, hnone]
  simp [hid]

/-- Appending a fresh record with the looked-up identifier to a store
that had none leaves exactly one record with that identifier. -/
theorem countP_append_self (db : CallsDb) (c : Call) (id : String)
    (hnone : findOneByOnchainId db id = none) (hid : c.callOnchainId = id) :
    (db ++ [c]).countP (fun x => x.callOnchainId == id) = 1 := by
  rw [List.countP_append]
  have hzero : db.countP (fun x => x.callOnchainId == id) = 0 := by
    rw [List.countP_eq_zero]
    intro a ha
    have := List.find?_eq_none.mp hnone a ha
    simpa using this
  rw [hzero]
  simp [hid]

/-- C6: the creation handler is idempotent on the on-chain identifier.
If a delivery succeeds, redelivering the identical event returns the
store unchanged; and when the identifier was previously unknown the
delivery appends exactly one record, which has a zeroed "no"
accumulator and status "active", leaving exactly one record with that
identifier. -/
theorem claim_C6 (validateUser : String → Except JsError Unit)
    (fetchIpfs : String → Except JsError IpfsJson)
    (db db1 : CallsDb) (ev : CallCreatedEvent)
    (h : handleCallCreated validateUser fetchIpfs db ev = .ok db1) :
    handleCallCreated validateUser fetchIpfs db1 ev = .ok db1 ∧
    (findOneByOnchainId db (toString ev.callId) = none →
      ∃ c, db1 = db ++ [c] ∧ c.callOnchainId = toString ev.callId ∧
        c.totalStakeNo = 0 ∧ c.status = "active" ∧
        db1.countP (fun x => x.callOnchainId == toString ev.callId) = 1) := by
  cases hfind : findOneByOnchainId db (toString ev.callId) with
  | some c0 =>
      simp only [handleCallCreated, hfind] at h
      obtain rfl : db = db1 := by injection h
      refine ⟨?_, ?_⟩
      · unfold handleCallCreated
        rw [hfind]
      · intro hnone
        exact Option.noConfusion hnone
  | none =>
      cases hval : validateUser ev.creator with
      | error e =>
          simp only [handleCallCreated, hfind, hval] at h
          exact (Except.noConfusion h)
      | ok u =>
          simp only [handleCallCreated, hfind, hval] at h
          injection h with h2
          subst h2
          refine ⟨?_, ?_⟩
          · unfold handleCallCreated
            rw [findOne_append_self db _ _ hfind rfl]
          · intro _
            exact ⟨_, rfl, rfl, rfl, rfl, countP_append_self db _ _ hfind rfl⟩

/-- Witness for C6: redelivering the creation event for identifier "42"
after a successful first delivery leaves the store unchanged. -/
theorem claim_C6_witness :
    handleCallCreated wValidate wIpfsFetch wDbAfter wCreatedEv = .ok wDbAfter :=
  (claim_C6 wValidate wIpfsFetch [] wDbAfter wCreatedEv rfl).1

/-- C7: the default Soroban retryability classifier returns true on
every rate-limit signal, false on every other message carrying a
4xx-class status code that does not mention a request-timeout class
code (408/425), and true on everything else. -/
theorem claim_C7 (err : JsError) :
    (signalsRateLimit (jsToLower err.message) = true →
      defaultSorobanIsRetryable err = true) ∧
    (signalsRateLimit (jsToLower err.message) = false →
      has4xxCode (jsToLower err.message) = true →
      mentionsTimeoutCode (jsToLower err.message) = false →
      defaultSorobanIsRetryable err = false) ∧
    (signalsRateLimit (jsToLower err.message) = false →
      (has4xxCode (jsToLower err.message) = false ∨
        mentionsTimeoutCode (jsToLower err.message) = true) →
      defaultSorobanIsRetryable err = true) := by
  unfold defaultSorobanIsRetryable signalsRateLimit mentionsTimeoutCode
  generalize jsToLower (JsError.message err) = m
  cases h1 : jsIncludes m "429" <;> cases h2 : jsIncludes m "rate limit" <;>
    cases h3 : jsIncludes m "too many requests" <;> cases h4 : has4xxCode m <;>
    cases h5 : jsIncludes m "408" <;> cases h6 : jsIncludes m "425" <;>
    simp [h1, h2, h3, h4, h5, h6]

/-- Witness for C7: "HTTP 404 not found" is classified non-retryable. -/
theorem claim_C7_witness :
    defaultSorobanIsRetryable (.plain "HTTP 404 not found") = false :=
  (claim_C7 (.plain "HTTP 404 not found")).2.1 (by decide) (by decide) (by decide)

/-- C8: a stake mutation whose identifier matches no persisted record
logs exactly one warning and leaves the store unchanged — no record is
created and every existing record is untouched. -/
theorem claim_C8 (db : CallsDb) (ev : StakeAddedEvent)
    (h : findOneByOnchainId db (toString ev.callId) = none) :
    (handleStakeAdded db ev).db = db ∧
    (handleStakeAdded db ev).warnings.length = 1 := by
  unfold handleStakeAdded
  rw [h]
  exact ⟨rfl, rfl⟩

/-- Witness for C8 on an empty store and stake event for identifier 7. -/
theorem claim_C8_witness :
    (handleStakeAdded [] wStakeEv).db = [] ∧
    (handleStakeAdded [] wStakeEv).warnings.length = 1 :=
  claim_C8 [] wStakeEv rfl
